import Mathlib

/-!
Verification of the SSOT binder core (`ssot/binder.py`): registry entry
model, per-entry leaf hashes, the binary Merkle tree over those hashes,
and the binder's candidate-validation preview.  Machine words are `Nat`
reduced modulo `2 ^ 32` where the source's hash arithmetic wraps; the
source's stateful methods are embedded as explicit state-passing
functions; fallible parsing returns `Except`.
-/

namespace SSOT

/-- 32-bit truncation: SHA-256 works on 32-bit words, here `Nat % 2^32`. -/
def w32 (n : Nat) : Nat := n % 4294967296

/-- Rotate a 32-bit word right by `n` bits. -/
def rotr (n x : Nat) : Nat := (x >>> n) ||| w32 (x <<< (32 - n))

/-- SHA-256 choice function `Ch(x,y,z)`. -/
def shaCh (x y z : Nat) : Nat := (x &&& y) ^^^ ((x ^^^ 4294967295) &&& z)

/-- SHA-256 majority function `Maj(x,y,z)`. -/
def shaMaj (x y z : Nat) : Nat := (x &&& y) ^^^ (x &&& z) ^^^ (y &&& z)

/-- SHA-256 `Σ0`. -/
def bigSigma0 (x : Nat) : Nat := rotr 2 x ^^^ rotr 13 x ^^^ rotr 22 x

/-- SHA-256 `Σ1`. -/
def bigSigma1 (x : Nat) : Nat := rotr 6 x ^^^ rotr 11 x ^^^ rotr 25 x

/-- SHA-256 `σ0`. -/
def smallSigma0 (x : Nat) : Nat := rotr 7 x ^^^ rotr 18 x ^^^ (x >>> 3)

/-- SHA-256 `σ1`. -/
def smallSigma1 (x : Nat) : Nat := rotr 17 x ^^^ rotr 19 x ^^^ (x >>> 10)

/-- SHA-256 round constants. -/
def shaK : List Nat :=
  [1116352408, 1899447441, 3049323471, 3921009573, 961987163, 1508970993,
   2453635748, 2870763221, 3624381080, 310598401, 607225278, 1426881987,
   1925078388, 2162078206, 2614888103, 3248222580, 3835390401, 4022224774,
   264347078, 604807628, 770255983, 1249150122, 1555081692, 1996064986,
   2554220882, 2821834349, 2952996808, 3210313671, 3336571891, 3584528711,
   113926993, 338241895, 666307205, 773529912, 1294757372, 1396182291,
   1695183700, 1986661051, 2177026350, 2456956037, 2730485921, 2820302411,
   3259730800, 3345764771, 3516065817, 3600352804, 4094571909, 275423344,
   430227734, 506948616, 659060556, 883997877, 958139571, 1322822218,
   1537002063, 1747873779, 1955562222, 2024104815, 2227730452, 2361852424,
   2428436474, 2756734187, 3204031479, 3329325298]

/-- Running state of the SHA-256 compression: eight 32-bit words. -/
structure Hash8 where
  a : Nat
  b : Nat
  c : Nat
  d : Nat
  e : Nat
  f : Nat
  g : Nat
  h : Nat
  deriving DecidableEq, Repr

/-- SHA-256 initial hash value. -/
def shaInit : Hash8 :=
  ⟨1779033703, 3144134277, 1013904242, 2773480762,
   1359893119, 2600822924, 528734635, 1541459225⟩

/-- One step of the SHA-256 message-schedule extension. -/
def scheduleStep (ws : List Nat) : List Nat :=
  let n := ws.length
  ws ++ [w32 (smallSigma1 (ws.getD (n - 2) 0) + ws.getD (n - 7) 0 +
              smallSigma0 (ws.getD (n - 15) 0) + ws.getD (n - 16) 0)]

/-- Extend a 16-word block to the 64-word SHA-256 message schedule. -/
def schedule (block : List Nat) : List Nat :=
  (List.range 48).foldl (fun ws _ => scheduleStep ws) block

/-- One SHA-256 round. -/
def shaRound (ws : List Nat) (r : Hash8) (i : Nat) : Hash8 :=
  let t1 := w32 (r.h + bigSigma1 r.e + shaCh r.e r.f r.g + shaK.getD i 0 + ws.getD i 0)
  let t2 := w32 (bigSigma0 r.a + shaMaj r.a r.b r.c)
  ⟨w32 (t1 + t2), r.a, r.b, r.c, w32 (r.d + t1), r.e, r.f, r.g⟩

/-- SHA-256 compression of one 64-word schedule into the running state. -/
def compress (st : Hash8) (ws : List Nat) : Hash8 :=
  let r := (List.range 64).foldl (shaRound ws) st
  ⟨w32 (st.a + r.a), w32 (st.b + r.b), w32 (st.c + r.c), w32 (st.d + r.d),
   w32 (st.e + r.e), w32 (st.f + r.f), w32 (st.g + r.g), w32 (st.h + r.h)⟩

/-- Big-endian bytes of `n`, `len` bytes wide. -/
def toBytesBE (len n : Nat) : List Nat :=
  (List.range len).map (fun i => (n >>> (8 * (len - 1 - i))) % 256)

/-- SHA-256 padding: append `0x80`, zeros, and the 64-bit bit length. -/
def padMessage (msg : List Nat) : List Nat :=
  msg ++ 128 :: List.replicate ((64 - ((msg.length + 9) % 64)) % 64) 0 ++
    toBytesBE 8 (8 * msg.length)

/-- Combine big-endian bytes into one word. -/
def bytesToWord (bs : List Nat) : Nat := bs.foldl (fun acc b => acc * 256 + b) 0

/-- SHA-256 of a byte sequence, as eight words. -/
def sha256Words (msg : List Nat) : Hash8 :=
  let blocks := ((padMessage msg).toChunks 64).map
    (fun blk => (blk.toChunks 4).map bytesToWord)
  blocks.foldl (fun st blk => compress st (schedule blk)) shaInit

/-- The sixteen lowercase hexadecimal digits. -/
def hexAlphabet : List Char := "0123456789abcdef".data

/-- Lowercase hex digit of `n % 16`. -/
def hexChar (n : Nat) : Char := hexAlphabet.getD (n % 16) '0'

/-- Eight lowercase hex digits of a 32-bit word, most significant first. -/
def wordHex (w : Nat) : List Char :=
  [hexChar (w >>> 28), hexChar (w >>> 24), hexChar (w >>> 20), hexChar (w >>> 16),
   hexChar (w >>> 12), hexChar (w >>> 8), hexChar (w >>> 4), hexChar w]

/-- Lowercase hex digest of an eight-word hash, 64 characters. -/
def Hash8.hex (st : Hash8) : String :=
  ⟨wordHex st.a ++ wordHex st.b ++ wordHex st.c ++ wordHex st.d ++
   wordHex st.e ++ wordHex st.f ++ wordHex st.g ++ wordHex st.h⟩

/-- UTF-8 bytes of one character (Python `str.encode("utf-8")`, per char). -/
def utf8Char (c : Char) : List Nat :=
  let n := c.toNat
  if n < 128 then [n]
  else if n < 2048 then [192 + n / 64, 128 + n % 64]
  else if n < 65536 then [224 + n / 4096, 128 + (n / 64) % 64, 128 + n % 64]
  else [240 + n / 262144, 128 + (n / 4096) % 64, 128 + (n / 64) % 64, 128 + n % 64]

/-- UTF-8 encoding of a string (Python `s.encode("utf-8")`). -/
def utf8 (s : String) : List Nat :=
  s.data.foldr (fun c acc => utf8Char c ++ acc) []

/-- `hashlib.sha256(s.encode("utf-8")).hexdigest()`. -/
def sha256hex (s : String) : String := (sha256Words (utf8 s)).hex

/-- Metadata describing the registry capsule itself (`RegistryContext`). -/
structure RegistryContext where
  name : String
  version : String
  maintainer : String
  deriving DecidableEq, Repr

/-- Attestation payload with signatures and quorum rules (`CouncilAttestation`). -/
structure CouncilAttestation where
  signatures : List String
  quorum_rule : String
  deriving DecidableEq, Repr

/-- Parentage and forks for a registry entry (`Lineage`). -/
structure Lineage where
  parent : Option String
  forks : List String
  immutable : Bool
  deriving DecidableEq, Repr

/-- Replay governance data for the entry (`ReplayRules`). -/
structure ReplayRules where
  authorized : Bool
  conditions : List String
  override_protocol : Option String
  deriving DecidableEq, Repr

/-- One artifact entry inside the SSOT binder (`RegistryEntry`).  The
`created_at` datetime is modelled as its ISO-8601 text; `entry_type` is
the field aliased to `type` on the wire. -/
structure RegistryEntry where
  artifact_id : String
  entry_type : String
  author : String
  created_at : String
  canonical_sha256 : String
  council_attestation : CouncilAttestation
  lineage : Lineage
  replay : ReplayRules
  capsule_ref : Option String
  notes : Option String
  deriving DecidableEq, Repr

/-- Six-character `\uXXXX` escape used by `json.dumps` for non-ASCII text. -/
def uEscape (n : Nat) : List Char :=
  ['\\', 'u', hexChar (n >>> 12), hexChar (n >>> 8), hexChar (n >>> 4), hexChar n]

/-- Escape of one character under `json.dumps` defaults (`ensure_ascii=True`):
quote and backslash get two-character escapes, the five short control escapes
apply, every other character outside printable ASCII becomes `\uXXXX`
(a surrogate pair beyond the BMP). -/
def escapeChar (c : Char) : List Char :=
  let n := c.toNat
  if n = 34 then ['\\', '"']
  else if n = 92 then ['\\', '\\']
  else if n = 10 then ['\\', 'n']
  else if n = 13 then ['\\', 'r']
  else if n = 9 then ['\\', 't']
  else if n = 8 then ['\\', 'b']
  else if n = 12 then ['\\', 'f']
  else if n < 32 || n > 126 then
    if n < 65536 then uEscape n
    else uEscape (55296 + (n - 65536) / 1024) ++ uEscape (56320 + (n - 65536) % 1024)
  else [c]

/-- JSON string literal for `s`, as produced by `json.dumps`. -/
def jsonStr (s : String) : String :=
  ⟨'"' :: s.data.foldr (fun c acc => escapeChar c ++ acc) ['"']⟩

/-- JSON value for an optional string: `null` for Python `None`. -/
def jsonOptStr : Option String → String
  | none => "null"
  | some s => jsonStr s

/-- JSON value for a Python bool. -/
def jsonBool (b : Bool) : String := if b then "true" else "false"

/-- JSON array of strings with `json.dumps` default separators. -/
def jsonStrList (xs : List String) : String :=
  "[" ++ String.intercalate ", " (xs.map jsonStr) ++ "]"

/-- Key-sorted JSON object for a `CouncilAttestation`. -/
def serializeAttestation (a : CouncilAttestation) : String :=
  "\x7b\"quorum_rule\": " ++ jsonStr a.quorum_rule ++
  ", \"signatures\": " ++ jsonStrList a.signatures ++ "\x7d"

/-- Key-sorted JSON object for a `Lineage`. -/
def serializeLineage (l : Lineage) : String :=
  "\x7b\"forks\": " ++ jsonStrList l.forks ++
  ", \"immutable\": " ++ jsonBool l.immutable ++
  ", \"parent\": " ++ jsonOptStr l.parent ++ "\x7d"

/-- Key-sorted JSON object for a `ReplayRules`. -/
def serializeReplay (r : ReplayRules) : String :=
  "\x7b\"authorized\": " ++ jsonBool r.authorized ++
  ", \"conditions\": " ++ jsonStrList r.conditions ++
  ", \"override_protocol\": " ++ jsonOptStr r.override_protocol ++ "\x7d"

/-- Modelled from the spec: the canonical serialization used by
`RegistryEntry.leaf_hash`, i.e. `self.json(by_alias=True, sort_keys=True,
exclude={"notes"})`.  The pydantic v1 `BaseModel.json` machinery is not in
the repository sources (the vendored shim has no `json` method), so this
follows the spec's canonicalization rule: a key-sorted JSON object over the
aliased field names (`type` for `entry_type`), recursively key-sorted
sub-objects, `json.dumps` defaults, with `notes` excluded and `created_at`
rendered as its ISO-8601 text. -/
def serializeEntryForHash (e : RegistryEntry) : String :=
  "\x7b\"artifact_id\": " ++ jsonStr e.artifact_id ++
  ", \"author\": " ++ jsonStr e.author ++
  ", \"canonical_sha256\": " ++ jsonStr e.canonical_sha256 ++
  ", \"capsule_ref\": " ++ jsonOptStr e.capsule_ref ++
  ", \"council_attestation\": " ++ serializeAttestation e.council_attestation ++
  ", \"created_at\": " ++ jsonStr e.created_at ++
  ", \"lineage\": " ++ serializeLineage e.lineage ++
  ", \"replay\": " ++ serializeReplay e.replay ++
  ", \"type\": " ++ jsonStr e.entry_type ++ "\x7d"

/-- Translation of `RegistryEntry.leaf_hash`: SHA-256 hex digest of the
UTF-8 bytes of the canonical serialization excluding `notes`. -/
def RegistryEntry.leaf_hash (e : RegistryEntry) : String :=
  sha256hex (serializeEntryForHash e)

/-- Translation of `_hash_pair`: SHA-256 hex digest of the concatenation
`f"{left}{right}"` of two sibling node hashes. -/
def hash_pair (left right : String) : String := sha256hex (left ++ right)

/-- A simple binary Merkle tree built from entry hashes (`MerkleTree`). -/
structure MerkleTree where
  leaves : List String
  deriving DecidableEq, Repr

/-- The odd-count duplication inside the `root` loop: `if len(level) % 2 == 1:
level.append(level[-1])`. -/
def padEven (level : List String) : List String :=
  if level.length % 2 = 1 then level ++ [level.getLastD ""] else level

/-- The pairing comprehension inside the `root` loop:
`[_hash_pair(level[i], level[i + 1]) for i in range(0, len(level), 2)]`,
applied to the padded (even-length) level; the one-element case is
unreachable after padding. -/
def combinePairs : List String → List String
  | a :: b :: rest => hash_pair a b :: combinePairs rest
  | _ => []

theorem length_combinePairs : ∀ l : List String, (combinePairs l).length = l.length / 2
  | [] => by simp [combinePairs]
  | [_] => by simp [combinePairs]
  | _ :: _ :: rest => by
      simp only [combinePairs, List.length_cons, length_combinePairs rest]
      omega

theorem length_padEven (l : List String) :
    (padEven l).length = if l.length % 2 = 1 then l.length + 1 else l.length := by
  simp only [padEven]
  split <;> simp

/-- The `while len(level) > 1` loop of `MerkleTree.root`, acting on the
local copy of the leaves. -/
def rootLoop : List String → String
  | [] => ""
  | [a] => a
  | a :: b :: rest => rootLoop (combinePairs (padEven (a :: b :: rest)))
termination_by l => l.length
decreasing_by
  simp only [length_combinePairs, length_padEven, List.length_cons]
  split <;> omega

/-- Translation of `MerkleTree.root` with its state made explicit.  The
method reads `self.leaves`, copies it (`level = self.leaves[:]`) and
mutates only that local copy, so the post-state of `self` is the input
tree unchanged. -/
def MerkleTree.rootSt (t : MerkleTree) : String × MerkleTree :=
  if t.leaves.isEmpty then ("", t) else (rootLoop t.leaves, t)

/-- The value computed by `MerkleTree.root`. -/
def MerkleTree.root (t : MerkleTree) : String := t.rootSt.1

/-- A parsed JSON value, the shape of the mappings fed to `parse_obj`. -/
inductive Json where
  | null
  | bool (b : Bool)
  | str (s : String)
  | num (n : Int)
  | arr (elems : List Json)
  | obj (fields : List (String × Json))

/-- One structured validation problem, mirroring the dictionaries produced
by pydantic's `ValidationError.errors()` and the duplicate-artifact error
literal in `SSOTBinder.validate_candidate`. -/
structure FieldError where
  loc : List String
  msg : String
  type : String
  deriving DecidableEq, Repr

/-- Lookup of a key in a JSON object's field list. -/
def getField (fields : List (String × Json)) (key : String) : Option Json :=
  match fields with
  | [] => none
  | (k, v) :: rest => if k = key then some v else getField rest key

/-- The `entry_type` value is populated from its alias `type`, falling back
to the field name (`allow_population_by_field_name = True`). -/
def getEntryTypeField (fields : List (String × Json)) : Option Json :=
  match getField fields "type" with
  | some v => some v
  | none => getField fields "entry_type"

/-- The five values admitted by the `validate_entry_type` validator. -/
def allowedEntryTypes : List String :=
  ["script", "storyboard", "asset", "clip", "checkpoint"]

/-- Whitespace characters stripped by Python's `str.strip()` (ASCII range). -/
def isSpaceChar (c : Char) : Bool :=
  c.toNat = 32 || (9 ≤ c.toNat && c.toNat ≤ 13)

/-- Python's `str.strip()`, applied by `anystr_strip_whitespace`. -/
def pyStrip (s : String) : String :=
  ⟨((s.data.dropWhile isSpaceChar).reverse.dropWhile isSpaceChar).reverse⟩

def missingError (key : String) : FieldError :=
  ⟨[key], "field required", "value_error.missing"⟩

/-- Modelled from the spec: per-field checks of the pydantic v1 validation
layer, which is not in the repository sources.  A required string field is
missing or not a string. -/
def checkRequiredStr (fields : List (String × Json)) (key : String) : List FieldError :=
  match getField fields key with
  | none => [missingError key]
  | some (.str _) => []
  | some _ => [⟨[key], "str type expected", "type_error.str"⟩]

/-- Optional string field: absent or `null` is fine, anything non-string fails. -/
def checkOptionalStr (fields : List (String × Json)) (key : String) : List FieldError :=
  match getField fields key with
  | none => []
  | some .null => []
  | some (.str _) => []
  | some _ => [⟨[key], "str type expected", "type_error.str"⟩]

/-- Every element of a JSON array is a string. -/
def allStr : List Json → Bool
  | [] => true
  | .str _ :: rest => allStr rest
  | _ => false

/-- Optional list-of-strings field with a `default_factory=list` default. -/
def checkStrList (outer : String) (fields : List (String × Json)) (key : String) :
    List FieldError :=
  match getField fields key with
  | none => []
  | some (.arr xs) =>
      if allStr xs then [] else [⟨[outer, key], "str type expected", "type_error.str"⟩]
  | some _ => [⟨[outer, key], "value is not a valid list", "type_error.list"⟩]

/-- Boolean field inside a sub-object. -/
def checkBool (outer : String) (fields : List (String × Json)) (key : String)
    (required : Bool) : List FieldError :=
  match getField fields key with
  | none => if required then [⟨[outer, key], "field required", "value_error.missing"⟩] else []
  | some (.bool _) => []
  | some _ => [⟨[outer, key], "value could not be parsed to a boolean", "type_error.bool"⟩]

/-- Optional string field inside a sub-object. -/
def checkSubOptStr (outer : String) (fields : List (String × Json)) (key : String) :
    List FieldError :=
  match getField fields key with
  | none => []
  | some .null => []
  | some (.str _) => []
  | some _ => [⟨[outer, key], "str type expected", "type_error.str"⟩]

/-- Validation of the `council_attestation` sub-model: optional
`signatures` list (default `[]`), required `quorum_rule` string. -/
def checkAttestation (fields : List (String × Json)) : List FieldError :=
  match getField fields "council_attestation" with
  | none => [missingError "council_attestation"]
  | some (.obj o) =>
      checkStrList "council_attestation" o "signatures" ++
      (match getField o "quorum_rule" with
       | none => [⟨["council_attestation", "quorum_rule"], "field required", "value_error.missing"⟩]
       | some (.str _) => []
       | some _ => [⟨["council_attestation", "quorum_rule"], "str type expected", "type_error.str"⟩])
  | some _ => [⟨["council_attestation"], "value is not a valid dict", "type_error.dict"⟩]

/-- Validation of the `lineage` sub-model: optional `parent`, optional
`forks` list (default `[]`), optional `immutable` flag (default `True`). -/
def checkLineage (fields : List (String × Json)) : List FieldError :=
  match getField fields "lineage" with
  | none => [missingError "lineage"]
  | some (.obj o) =>
      checkSubOptStr "lineage" o "parent" ++
      checkStrList "lineage" o "forks" ++
      checkBool "lineage" o "immutable" false
  | some _ => [⟨["lineage"], "value is not a valid dict", "type_error.dict"⟩]

/-- Validation of the `replay` sub-model: required `authorized` flag,
optional `conditions` list (default `[]`), optional `override_protocol`. -/
def checkReplay (fields : List (String × Json)) : List FieldError :=
  match getField fields "replay" with
  | none => [missingError "replay"]
  | some (.obj o) =>
      checkBool "replay" o "authorized" true ++
      checkStrList "replay" o "conditions" ++
      checkSubOptStr "replay" o "override_protocol"
  | some _ => [⟨["replay"], "value is not a valid dict", "type_error.dict"⟩]

/-- Validation of `entry_type`: required via alias `type`, must be a string
and, after whitespace stripping (`anystr_strip_whitespace`), must pass the
`validate_entry_type` validator, whose `ValueError` surfaces as a
`value_error` problem. -/
def checkEntryType (fields : List (String × Json)) : List FieldError :=
  match getEntryTypeField fields with
  | none => [missingError "entry_type"]
  | some (.str s) =>
      if allowedEntryTypes.contains (pyStrip s) then []
      else [⟨["entry_type"],
            "entry type \x27" ++ pyStrip s ++ "\x27 is not part of the canonical binder",
            "value_error"⟩]
  | some _ => [⟨["entry_type"], "str type expected", "type_error.str"⟩]

/-- Validation of `created_at`: required, modelled as an ISO-8601 string. -/
def checkDatetime (fields : List (String × Json)) : List FieldError :=
  match getField fields "created_at" with
  | none => [missingError "created_at"]
  | some (.str _) => []
  | some _ => [⟨["created_at"], "invalid datetime format", "value_error.datetime"⟩]

/-- Modelled from the spec: the aggregated field-level problems of parsing a
candidate mapping into a `RegistryEntry`, every field-level problem listed. -/
def checkEntryFields (fields : List (String × Json)) : List FieldError :=
  checkRequiredStr fields "artifact_id" ++
  checkEntryType fields ++
  checkRequiredStr fields "author" ++
  checkDatetime fields ++
  checkRequiredStr fields "canonical_sha256" ++
  checkAttestation fields ++
  checkLineage fields ++
  checkReplay fields ++
  checkOptionalStr fields "capsule_ref" ++
  checkOptionalStr fields "notes"

/-- String content of a field, stripped (`anystr_strip_whitespace`). -/
def asStr (j : Option Json) : String :=
  match j with
  | some (.str s) => pyStrip s
  | _ => ""

/-- Optional string content of a field, stripped. -/
def asOptStr (j : Option Json) : Option String :=
  match j with
  | some (.str s) => some (pyStrip s)
  | _ => none

/-- Boolean content of a field, with the declared default. -/
def asBool (j : Option Json) (dflt : Bool) : Bool :=
  match j with
  | some (.bool b) => b
  | _ => dflt

/-- List-of-strings content of a field, defaulting to `[]`. -/
def asStrList (j : Option Json) : List String :=
  match j with
  | some (.arr xs) => xs.map (fun x => match x with | .str s => pyStrip s | _ => "")
  | _ => []

/-- The datetime field kept as its ISO-8601 text. -/
def asDatetime (j : Option Json) : String :=
  match j with
  | some (.str s) => s
  | _ => ""

def buildAttestation (fields : List (String × Json)) : CouncilAttestation :=
  match getField fields "council_attestation" with
  | some (.obj o) => ⟨asStrList (getField o "signatures"), asStr (getField o "quorum_rule")⟩
  | _ => ⟨[], ""⟩

def buildLineage (fields : List (String × Json)) : Lineage :=
  match getField fields "lineage" with
  | some (.obj o) =>
      ⟨asOptStr (getField o "parent"), asStrList (getField o "forks"),
       asBool (getField o "immutable") true⟩
  | _ => ⟨none, [], true⟩

def buildReplay (fields : List (String × Json)) : ReplayRules :=
  match getField fields "replay" with
  | some (.obj o) =>
      ⟨asBool (getField o "authorized") false, asStrList (getField o "conditions"),
       asOptStr (getField o "override_protocol")⟩
  | _ => ⟨false, [], none⟩

/-- The entry built from a mapping that passed every field check. -/
def buildEntry (fields : List (String × Json)) : RegistryEntry :=
  { artifact_id := asStr (getField fields "artifact_id"),
    entry_type := asStr (getEntryTypeField fields),
    author := asStr (getField fields "author"),
    created_at := asDatetime (getField fields "created_at"),
    canonical_sha256 := asStr (getField fields "canonical_sha256"),
    council_attestation := buildAttestation fields,
    lineage := buildLineage fields,
    replay := buildReplay fields,
    capsule_ref := asOptStr (getField fields "capsule_ref"),
    notes := asOptStr (getField fields "notes") }

/-- Modelled from the spec: `RegistryEntry.parse_obj` of the pydantic v1
layer (not in the repository sources).  A non-mapping input fails outright;
a mapping either fails with the aggregated list of field-level problems or
produces the validated entry. -/
def RegistryEntry.parse_obj (j : Json) : Except (List FieldError) RegistryEntry :=
  match j with
  | .obj fields =>
      match checkEntryFields fields with
      | [] => .ok (buildEntry fields)
      | errs => .error errs
  | _ => .error [⟨["__root__"], "value is not a valid dict", "type_error.dict"⟩]

/-- Top-level capsule structure holding the registry (`RegistryEnvelope`). -/
structure RegistryEnvelope where
  capsule_id : String
  registry : RegistryContext
  entries : List RegistryEntry
  deriving DecidableEq, Repr

/-- Python string comparison on two character lists: lexicographic by
code point. -/
def pyStrLeAux : List Char → List Char → Bool
  | [], _ => true
  | _ :: _, [] => false
  | c :: cs, d :: ds =>
      if c.toNat < d.toNat then true
      else if d.toNat < c.toNat then false
      else pyStrLeAux cs ds

/-- Python's `<=` on strings, the order used by `sorted`. -/
def pyStrLe (a b : String) : Bool := pyStrLeAux a.data b.data

/-- The comparison induced by `key=lambda entry: entry.artifact_id`. -/
def entryLe (a b : RegistryEntry) : Bool := pyStrLe a.artifact_id b.artifact_id

/-- Translation of `RegistryEnvelope.ensure_sorted_entries`: Python's
stable `sorted(value, key=lambda entry: entry.artifact_id)`. -/
def ensure_sorted_entries (value : List RegistryEntry) : List RegistryEntry :=
  value.mergeSort entryLe

/-- Envelope construction: pydantic runs the `entries` validator at
construction, so the stored list is the sorted one. -/
def mkRegistryEnvelope (capsule_id : String) (registry : RegistryContext)
    (entries : List RegistryEntry) : RegistryEnvelope :=
  ⟨capsule_id, registry, ensure_sorted_entries entries⟩

/-- Utility wrapper around the registry envelope (`SSOTBinder`). -/
structure SSOTBinder where
  envelope : RegistryEnvelope
  entry_map : List (String × RegistryEntry)
  merkle : MerkleTree
  deriving DecidableEq, Repr

/-- Python dict assignment as used by the `_entry_map` comprehension: a
repeated key keeps its position and takes the latest value. -/
def dictInsert (m : List (String × RegistryEntry)) (k : String) (v : RegistryEntry) :
    List (String × RegistryEntry) :=
  if m.any (fun p => p.1 == k) then m.map (fun p => if p.1 = k then (k, v) else p)
  else m ++ [(k, v)]

/-- The `_entry_map` dict comprehension over the envelope's entries. -/
def buildEntryMap (entries : List RegistryEntry) : List (String × RegistryEntry) :=
  entries.foldl (fun m e => dictInsert m e.artifact_id e) []

/-- Python dict lookup. -/
def dictLookup (m : List (String × RegistryEntry)) (k : String) : Option RegistryEntry :=
  match m with
  | [] => none
  | (k2, v) :: rest => if k2 = k then some v else dictLookup rest k

/-- Translation of `SSOTBinder.__init__`: store the envelope, build the
id-to-entry map, and build the Merkle tree from the entries' leaf hashes
in stored (sorted) order. -/
def mkSSOTBinder (envelope : RegistryEnvelope) : SSOTBinder :=
  { envelope := envelope,
    entry_map := buildEntryMap envelope.entries,
    merkle := ⟨envelope.entries.map RegistryEntry.leaf_hash⟩ }

/-- The `capsule_id` property. -/
def SSOTBinder.capsule_id (b : SSOTBinder) : String := b.envelope.capsule_id

/-- The `registry` property. -/
def SSOTBinder.registry (b : SSOTBinder) : RegistryContext := b.envelope.registry

/-- The `entries` property (`list(self._envelope.entries)` returns a copy). -/
def SSOTBinder.entries (b : SSOTBinder) : List RegistryEntry := b.envelope.entries

/-- The `merkle_root` property with its state made explicit: it returns
`self._merkle.root()` and the binder it leaves behind. -/
def SSOTBinder.merkle_rootSt (b : SSOTBinder) : String × SSOTBinder :=
  let p := b.merkle.rootSt
  (p.1, { b with merkle := p.2 })

/-- Translation of `SSOTBinder.get_entry`: dict lookup, absent on miss. -/
def SSOTBinder.get_entry (b : SSOTBinder) (artifact_id : String) : Option RegistryEntry :=
  dictLookup b.entry_map artifact_id

/-- One serialized entry payload of `as_dict`/`validate_candidate`: the
entry's fields annotated with its own `leaf_hash`. -/
structure EntryPayload where
  entry : RegistryEntry
  leaf_hash : String
  deriving DecidableEq, Repr

/-- The serializable snapshot returned by `SSOTBinder.as_dict`. -/
structure BinderDict where
  capsule_id : String
  registry : RegistryContext
  entries : List EntryPayload
  merkle_root : String
  deriving DecidableEq, Repr

/-- Translation of `SSOTBinder.as_dict` with its state made explicit:
every entry annotated with its `leaf_hash`, plus the `merkle_root`. -/
def SSOTBinder.as_dict (b : SSOTBinder) : BinderDict × SSOTBinder :=
  let payloads := b.envelope.entries.map (fun e => EntryPayload.mk e e.leaf_hash)
  let p := b.merkle_rootSt
  (⟨p.2.capsule_id, p.2.registry, payloads, p.1⟩, p.2)

/-- The outcome dictionary of `SSOTBinder.validate_candidate`. -/
inductive ValidationResult where
  | invalid (errors : List FieldError)
  | valid (candidate : EntryPayload) (merkle_preview : String)
  deriving DecidableEq, Repr

/-- Translation of `SSOTBinder._candidate_merkle_root`: recompute the
stored entries' leaf hashes into a fresh local list, append the
candidate's leaf hash, and take the root of a tree built from that list. -/
def SSOTBinder.candidate_merkle_root (b : SSOTBinder) (candidate : RegistryEntry) : String :=
  let leaves := (b.envelope.entries.map RegistryEntry.leaf_hash) ++ [candidate.leaf_hash]
  (MerkleTree.mk leaves).root

/-- Translation of `SSOTBinder.validate_candidate` with its state made
explicit.  Parse failure is caught and returned as data; a clean parse
whose id is already in `_entry_map` yields the single duplicate error
literal; otherwise the serialized candidate (with its `leaf_hash`) and the
preview root are returned.  The method body never assigns to `self`, so
the explicit post-state is the input binder. -/
def SSOTBinder.validate_candidate (b : SSOTBinder) (candidate_data : Json) :
    ValidationResult × SSOTBinder :=
  match RegistryEntry.parse_obj candidate_data with
  | .error errs => (.invalid errs, b)
  | .ok candidate =>
      if (dictLookup b.entry_map candidate.artifact_id).isSome then
        (.invalid [⟨["artifact_id"], "artifact already registered", "value_error.duplicate"⟩], b)
      else
        (.valid ⟨candidate, candidate.leaf_hash⟩ (b.candidate_merkle_root candidate), b)

/-! ## Concrete fixtures used by the witnesses -/

/-- A sample registry context. -/
def sampleContext : RegistryContext := ⟨"sovereign-archive", "1.0.0", "council"⟩

/-- A sample registry entry with the given id, author and notes. -/
def sampleEntryFull (id author : String) (notes : Option String) : RegistryEntry :=
  { artifact_id := id, entry_type := "script", author := author,
    created_at := "2024-05-01T12:00:00+00:00", canonical_sha256 := "c0ffee",
    council_attestation := ⟨["sig-alpha"], "2-of-3"⟩,
    lineage := ⟨none, [], true⟩,
    replay := ⟨true, [], none⟩,
    capsule_ref := none, notes := notes }

/-- A sample registry entry with the given id. -/
def sampleEntry (id : String) : RegistryEntry := sampleEntryFull id "Lead Writer" none

/-- A sample envelope whose entry list is already in artifact-id order. -/
def sampleEnvelope : RegistryEnvelope :=
  ⟨"capsule-0001", sampleContext, [sampleEntry "a", sampleEntry "b"]⟩

/-- The binder built from the sample envelope. -/
def sampleBinder : SSOTBinder := mkSSOTBinder sampleEnvelope

/-- A candidate mapping with the given id and entry type, otherwise
well-formed. -/
def candidateJson (id ty : String) : Json := .obj [
  ("artifact_id", .str id),
  ("type", .str ty),
  ("author", .str "Lead Writer"),
  ("created_at", .str "2024-05-01T12:00:00+00:00"),
  ("canonical_sha256", .str "c0ffee"),
  ("council_attestation", .obj [("signatures", .arr [.str "sig-alpha"]),
                                ("quorum_rule", .str "2-of-3")]),
  ("lineage", .obj [("parent", .null), ("forks", .arr []), ("immutable", .bool true)]),
  ("replay", .obj [("authorized", .bool true), ("conditions", .arr []),
                   ("override_protocol", .null)])]

/-- An envelope whose input entry list carries two entries with the same
`artifact_id` but different content. -/
def dupEnvelope : RegistryEnvelope :=
  mkRegistryEnvelope "capsule-dup" sampleContext
    [sampleEntryFull "a" "First Author" none, sampleEntryFull "a" "Second Author" none]

/-! ## Theorems -/

theorem rootSt_snd (t : MerkleTree) : t.rootSt.2 = t := by
  unfold MerkleTree.rootSt
  split <;> rfl

theorem merkle_rootSt_snd (b : SSOTBinder) : b.merkle_rootSt.2 = b := by
  simp [SSOTBinder.merkle_rootSt, rootSt_snd]

theorem validate_candidate_snd (b : SSOTBinder) (data : Json) :
    (b.validate_candidate data).2 = b := by
  unfold SSOTBinder.validate_candidate
  cases RegistryEntry.parse_obj data with
  | error errs => rfl
  | ok candidate => dsimp only; split <;> rfl

theorem validate_candidate_foldl_snd (b : SSOTBinder) (calls : List Json) :
    calls.foldl (fun s d => (s.validate_candidate d).2) b = b := by
  induction calls with
  | nil => rfl
  | cons d rest ih => simp [validate_candidate_snd, ih]

/-- C10: `MerkleTree.root` operates on a local copy of the stored leaves,
so it leaves the tree — in particular its `leaves` list — unchanged, and
any number of `root()` calls, and hence repeated reads of a binder's
`merkle_root` property, return the same string. -/
theorem merkle_root_pure_reads (t : MerkleTree) (b : SSOTBinder) :
    t.rootSt.2 = t ∧
    t.rootSt.2.leaves = t.leaves ∧
    t.rootSt.2.rootSt.1 = t.rootSt.1 ∧
    b.merkle_rootSt.2 = b ∧
    b.merkle_rootSt.2.merkle_rootSt.1 = b.merkle_rootSt.1 := by
  refine ⟨rootSt_snd t, ?_, ?_, merkle_rootSt_snd b, ?_⟩
  · rw [rootSt_snd]
  · rw [rootSt_snd]
  · rw [merkle_rootSt_snd]

/-- C3: `validate_candidate` never mutates the binder: after any sequence
of calls the stored envelope, id-to-entry map and Merkle tree are
unchanged, `as_dict()` returns the same snapshot (same entry count, entry
list and `merkle_root`) before and after, and a repeated call with the
same input returns the same result. -/
theorem validate_candidate_non_mutating (b : SSOTBinder) (data : Json) (calls : List Json) :
    (b.validate_candidate data).2.envelope = b.envelope ∧
    (b.validate_candidate data).2.entry_map = b.entry_map ∧
    (b.validate_candidate data).2.merkle = b.merkle ∧
    calls.foldl (fun s d => (s.validate_candidate d).2) b = b ∧
    ((calls.foldl (fun s d => (s.validate_candidate d).2) b).as_dict).1 = (b.as_dict).1 ∧
    ((calls.foldl (fun s d => (s.validate_candidate d).2) b).as_dict).1.entries.length =
      (b.as_dict).1.entries.length ∧
    ((calls.foldl (fun s d => (s.validate_candidate d).2) b).as_dict).1.merkle_root =
      (b.as_dict).1.merkle_root ∧
    ((b.validate_candidate data).2).validate_candidate data = b.validate_candidate data := by
  rw [validate_candidate_snd, validate_candidate_foldl_snd]
  exact ⟨rfl, rfl, rfl, rfl, rfl, rfl, rfl, rfl⟩

/-- C7: the Merkle root combines adjacent nodes left-to-right by SHA-256
over the concatenation of the two hash strings, duplicating the last node
of any odd-count level — at every level, as the six-leaf case shows —
until one node remains; a single leaf is its own root and zero leaves
give the empty string. -/
theorem merkle_root_combination_rule :
    ((MerkleTree.mk []).root = "") ∧
    (∀ A : String, (MerkleTree.mk [A]).root = A) ∧
    (∀ A B C : String,
      (MerkleTree.mk [A, B, C]).root = hash_pair (hash_pair A B) (hash_pair C C)) ∧
    (∀ A B C D E F : String,
      (MerkleTree.mk [A, B, C, D, E, F]).root =
        hash_pair (hash_pair (hash_pair A B) (hash_pair C D))
                  (hash_pair (hash_pair E F) (hash_pair E F))) ∧
    (∀ left right : String, hash_pair left right = sha256hex (left ++ right)) := by
  refine ⟨rfl, ?_, ?_, ?_, fun left right => rfl⟩
  · intro A
    simp [MerkleTree.root, MerkleTree.rootSt, rootLoop]
  · intro A B C
    simp [MerkleTree.root, MerkleTree.rootSt, rootLoop, padEven, combinePairs]
  · intro A B C D E F
    simp [MerkleTree.root, MerkleTree.rootSt, rootLoop, padEven, combinePairs]

theorem hexChar_mem (n : Nat) : hexChar n ∈ hexAlphabet := by
  unfold hexChar
  have h : n % 16 < 16 := Nat.mod_lt _ (by norm_num)
  generalize n % 16 = k at h ⊢
  interval_cases k <;> decide

theorem wordHex_mem (w : Nat) : ∀ c ∈ wordHex w, c ∈ hexAlphabet := by
  intro c hc
  simp only [wordHex, List.mem_cons, List.not_mem_nil, or_false] at hc
  rcases hc with rfl | rfl | rfl | rfl | rfl | rfl | rfl | rfl <;> exact hexChar_mem _

theorem sha256hex_length (s : String) : (sha256hex s).length = 64 := by
  simp [sha256hex, Hash8.hex, String.length, wordHex]

theorem sha256hex_mem (s : String) : ∀ c ∈ (sha256hex s).data, c ∈ hexAlphabet := by
  intro c hc
  simp only [sha256hex, Hash8.hex, List.mem_append] at hc
  rcases hc with ((((((h | h) | h) | h) | h) | h) | h) | h <;> exact wordHex_mem _ _ h

/-- C1: `leaf_hash()` is a pure function of the entry's field values
excluding `notes`: independently constructed entries agreeing on every
field but `notes` hash alike, and the digest is a 64-character lowercase
hex SHA-256 string. -/
theorem leaf_hash_content_determined (e1 e2 : RegistryEntry)
    (hid : e1.artifact_id = e2.artifact_id)
    (hty : e1.entry_type = e2.entry_type)
    (hau : e1.author = e2.author)
    (hct : e1.created_at = e2.created_at)
    (hsh : e1.canonical_sha256 = e2.canonical_sha256)
    (hat : e1.council_attestation = e2.council_attestation)
    (hli : e1.lineage = e2.lineage)
    (hre : e1.replay = e2.replay)
    (hcp : e1.capsule_ref = e2.capsule_ref) :
    e1.leaf_hash = e2.leaf_hash ∧
    e1.leaf_hash.length = 64 ∧
    (∀ c ∈ e1.leaf_hash.data, c ∈ hexAlphabet) := by
  refine ⟨?_, sha256hex_length _, sha256hex_mem _⟩
  unfold RegistryEntry.leaf_hash serializeEntryForHash
  rw [hid, hty, hau, hct, hsh, hat, hli, hre, hcp]

theorem leaf_hash_content_determined_witness :
    (sampleEntryFull "a" "Lead Writer" (some "draft")).leaf_hash =
      (sampleEntryFull "a" "Lead Writer" (some "reviewed")).leaf_hash ∧
    (sampleEntryFull "a" "Lead Writer" (some "draft")).leaf_hash.length = 64 ∧
    (∀ c ∈ (sampleEntryFull "a" "Lead Writer" (some "draft")).leaf_hash.data,
      c ∈ hexAlphabet) :=
  leaf_hash_content_determined _ _ rfl rfl rfl rfl rfl rfl rfl rfl rfl

theorem parse_error_ne_nil (j : Json) (errs : List FieldError)
    (h : RegistryEntry.parse_obj j = .error errs) : errs ≠ [] := by
  unfold RegistryEntry.parse_obj at h
  split at h
  · split at h
    · exact absurd h (by simp)
    · next l hne => injection h with h2; rw [← h2]; exact hne
  · injection h with h2; simp [← h2]

/-- C5: a candidate mapping that fails entry validation makes
`validate_candidate` return an invalid outcome carrying the structured,
nonempty list of per-field problems as data; the embedding is a total
function, so no uncaught exception reaches the caller. -/
theorem validate_candidate_parse_failure (b : SSOTBinder) (data : Json)
    (errs : List FieldError) (h : RegistryEntry.parse_obj data = .error errs) :
    b.validate_candidate data = (.invalid errs, b) ∧ errs ≠ [] := by
  constructor
  · unfold SSOTBinder.validate_candidate
    rw [h]
  · exact parse_error_ne_nil _ _ h

theorem validate_candidate_parse_failure_witness :
    RegistryEntry.parse_obj (candidateJson "c" "movie") =
      .error [⟨["entry_type"],
              "entry type \x27movie\x27 is not part of the canonical binder",
              "value_error"⟩] ∧
    sampleBinder.validate_candidate (candidateJson "c" "movie") =
      (.invalid [⟨["entry_type"],
                 "entry type \x27movie\x27 is not part of the canonical binder",
                 "value_error"⟩], sampleBinder) ∧
    ([⟨["entry_type"],
      "entry type \x27movie\x27 is not part of the canonical binder",
      "value_error"⟩] : List FieldError) ≠ [] :=
  ⟨rfl,
   (validate_candidate_parse_failure sampleBinder (candidateJson "c" "movie") _ rfl).1,
   (validate_candidate_parse_failure sampleBinder (candidateJson "c" "movie") _ rfl).2⟩

/-- C2: a candidate that parses cleanly into an entry whose id is not in
the binder is answered "valid", together with the candidate's serialized
payload carrying its own `leaf_hash` and a preview root equal to the root
of a tree over the existing leaf hashes with the candidate's appended. -/
theorem validate_candidate_preview_correct (b : SSOTBinder) (data : Json)
    (cand : RegistryEntry)
    (hparse : RegistryEntry.parse_obj data = .ok cand)
    (hfresh : dictLookup b.entry_map cand.artifact_id = none) :
    b.validate_candidate data =
      (.valid ⟨cand, cand.leaf_hash⟩
        ((MerkleTree.mk ((b.entries.map RegistryEntry.leaf_hash) ++
            [cand.leaf_hash])).root), b) := by
  unfold SSOTBinder.validate_candidate
  rw [hparse]
  simp [hfresh, SSOTBinder.candidate_merkle_root, SSOTBinder.entries]

theorem validate_candidate_preview_correct_witness :
    RegistryEntry.parse_obj (candidateJson "c" "script") = .ok (sampleEntry "c") ∧
    dictLookup sampleBinder.entry_map (sampleEntry "c").artifact_id = none ∧
    sampleBinder.validate_candidate (candidateJson "c" "script") =
      (.valid ⟨sampleEntry "c", (sampleEntry "c").leaf_hash⟩
        ((MerkleTree.mk ((sampleBinder.entries.map RegistryEntry.leaf_hash) ++
            [(sampleEntry "c").leaf_hash])).root), sampleBinder) :=
  ⟨rfl, rfl,
   validate_candidate_preview_correct sampleBinder (candidateJson "c" "script")
     (sampleEntry "c") rfl rfl⟩

theorem checkRequiredStr_not_dup (f : List (String × Json)) (k : String) :
    ∀ e ∈ checkRequiredStr f k, e.type ≠ "value_error.duplicate" := by
  intro e he
  unfold checkRequiredStr at he
  split at he <;> simp_all [missingError]

theorem checkOptionalStr_not_dup (f : List (String × Json)) (k : String) :
    ∀ e ∈ checkOptionalStr f k, e.type ≠ "value_error.duplicate" := by
  intro e he
  unfold checkOptionalStr at he
  split at he <;> simp_all

theorem checkStrList_not_dup (outer : String) (f : List (String × Json)) (k : String) :
    ∀ e ∈ checkStrList outer f k, e.type ≠ "value_error.duplicate" := by
  intro e he
  unfold checkStrList at he
  split at he <;> simp_all

theorem checkBool_not_dup (outer : String) (f : List (String × Json)) (k : String)
    (req : Bool) : ∀ e ∈ checkBool outer f k req, e.type ≠ "value_error.duplicate" := by
  intro e he
  unfold checkBool at he
  split at he <;> simp_all

theorem checkSubOptStr_not_dup (outer : String) (f : List (String × Json)) (k : String) :
    ∀ e ∈ checkSubOptStr outer f k, e.type ≠ "value_error.duplicate" := by
  intro e he
  unfold checkSubOptStr at he
  split at he <;> simp_all

theorem checkAttestation_not_dup (f : List (String × Json)) :
    ∀ e ∈ checkAttestation f, e.type ≠ "value_error.duplicate" := by
  intro e he
  unfold checkAttestation at he
  split at he
  · simp_all [missingError]
  · rw [List.mem_append] at he
    rcases he with he | he
    · exact checkStrList_not_dup _ _ _ e he
    · split at he <;> simp_all
  · simp_all

theorem checkLineage_not_dup (f : List (String × Json)) :
    ∀ e ∈ checkLineage f, e.type ≠ "value_error.duplicate" := by
  intro e he
  unfold checkLineage at he
  split at he
  · simp_all [missingError]
  · rw [List.mem_append, List.mem_append] at he
    rcases he with (he | he) | he
    · exact checkSubOptStr_not_dup _ _ _ e he
    · exact checkStrList_not_dup _ _ _ e he
    · exact checkBool_not_dup _ _ _ _ e he
  · simp_all

theorem checkReplay_not_dup (f : List (String × Json)) :
    ∀ e ∈ checkReplay f, e.type ≠ "value_error.duplicate" := by
  intro e he
  unfold checkReplay at he
  split at he
  · simp_all [missingError]
  · rw [List.mem_append, List.mem_append] at he
    rcases he with (he | he) | he
    · exact checkBool_not_dup _ _ _ _ e he
    · exact checkStrList_not_dup _ _ _ e he
    · exact checkSubOptStr_not_dup _ _ _ e he
  · simp_all

theorem checkEntryType_not_dup (f : List (String × Json)) :
    ∀ e ∈ checkEntryType f, e.type ≠ "value_error.duplicate" := by
  intro e he
  unfold checkEntryType at he
  split at he <;> simp_all [missingError]

theorem checkDatetime_not_dup (f : List (String × Json)) :
    ∀ e ∈ checkDatetime f, e.type ≠ "value_error.duplicate" := by
  intro e he
  unfold checkDatetime at he
  split at he <;> simp_all [missingError]

theorem checkEntryFields_not_dup (f : List (String × Json)) :
    ∀ e ∈ checkEntryFields f, e.type ≠ "value_error.duplicate" := by
  intro e he
  unfold checkEntryFields at he
  simp only [List.mem_append] at he
  rcases he with ((((((((he | he) | he) | he) | he) | he) | he) | he) | he) | he
  · exact checkRequiredStr_not_dup _ _ e he
  · exact checkEntryType_not_dup _ e he
  · exact checkRequiredStr_not_dup _ _ e he
  · exact checkDatetime_not_dup _ e he
  · exact checkRequiredStr_not_dup _ _ e he
  · exact checkAttestation_not_dup _ e he
  · exact checkLineage_not_dup _ e he
  · exact checkReplay_not_dup _ e he
  · exact checkOptionalStr_not_dup _ _ e he
  · exact checkOptionalStr_not_dup _ _ e he

theorem parse_errors_not_dup (j : Json) (errs : List FieldError)
    (h : RegistryEntry.parse_obj j = .error errs) :
    ∀ e ∈ errs, e.type ≠ "value_error.duplicate" := by
  unfold RegistryEntry.parse_obj at h
  split at h
  · split at h
    · exact absurd h (by simp)
    · next l hne =>
        injection h with h2
        rw [← h2]
        exact checkEntryFields_not_dup _
  · injection h with h2
    rw [← h2]
    intro e he
    simp only [List.mem_singleton] at he
    subst he
    decide

/-- C4: a cleanly parsed candidate whose `artifact_id` is already present
is rejected with the single duplicate-artifact error, whose kind
`value_error.duplicate` no field-validation error ever carries; the
duplicate check runs only after a clean parse — a failed parse returns
the field errors instead. -/
theorem validate_candidate_duplicate_rejection (b : SSOTBinder) (data : Json)
    (cand : RegistryEntry)
    (hparse : RegistryEntry.parse_obj data = .ok cand)
    (hdup : (dictLookup b.entry_map cand.artifact_id).isSome = true) :
    b.validate_candidate data =
      (.invalid [⟨["artifact_id"], "artifact already registered",
                  "value_error.duplicate"⟩], b) ∧
    (∀ j errs, RegistryEntry.parse_obj j = .error errs →
      (b.validate_candidate j = (.invalid errs, b) ∧
       ∀ e ∈ errs, e.type ≠ "value_error.duplicate")) := by
  constructor
  · unfold SSOTBinder.validate_candidate
    rw [hparse]
    simp [hdup]
  · intro j errs hj
    refine ⟨?_, parse_errors_not_dup j errs hj⟩
    unfold SSOTBinder.validate_candidate
    rw [hj]

theorem validate_candidate_duplicate_rejection_witness :
    RegistryEntry.parse_obj (candidateJson "a" "script") = .ok (sampleEntry "a") ∧
    (dictLookup sampleBinder.entry_map (sampleEntry "a").artifact_id).isSome = true ∧
    sampleBinder.validate_candidate (candidateJson "a" "script") =
      (.invalid [⟨["artifact_id"], "artifact already registered",
                  "value_error.duplicate"⟩], sampleBinder) :=
  ⟨rfl, rfl,
   (validate_candidate_duplicate_rejection sampleBinder (candidateJson "a" "script")
     (sampleEntry "a") rfl rfl).1⟩

theorem pyStrLeAux_total : ∀ xs ys : List Char,
    pyStrLeAux xs ys = true ∨ pyStrLeAux ys xs = true
  | [], ys => Or.inl (by simp [pyStrLeAux])
  | _ :: _, [] => Or.inr (by simp [pyStrLeAux])
  | x :: xs, y :: ys => by
      rcases Nat.lt_trichotomy x.toNat y.toNat with h | h | h
      · exact Or.inl (by simp [pyStrLeAux, h])
      · rcases pyStrLeAux_total xs ys with ih | ih
        · exact Or.inl (by simp [pyStrLeAux, h, ih])
        · exact Or.inr (by simp [pyStrLeAux, ← h, ih])
      · exact Or.inr (by simp [pyStrLeAux, h])

theorem pyStrLeAux_trans : ∀ xs ys zs : List Char,
    pyStrLeAux xs ys = true → pyStrLeAux ys zs = true → pyStrLeAux xs zs = true
  | [], _, _ => fun _ _ => by simp [pyStrLeAux]
  | _ :: _, [], _ => fun h1 _ => by simp [pyStrLeAux] at h1
  | _ :: _, _ :: _, [] => fun _ h2 => by simp [pyStrLeAux] at h2
  | x :: xs, y :: ys, z :: zs => fun h1 h2 => by
      simp only [pyStrLeAux] at h1 h2 ⊢
      rcases Nat.lt_trichotomy x.toNat y.toNat with hxy | hxy | hxy
      · rcases Nat.lt_trichotomy y.toNat z.toNat with hyz | hyz | hyz
        · simp [Nat.lt_trans hxy hyz]
        · simp [show x.toNat < z.toNat by omega]
        · rw [if_neg (Nat.lt_asymm hyz), if_pos hyz] at h2
          exact absurd h2 (by simp)
      · rw [if_neg (by omega), if_neg (by omega)] at h1
        rcases Nat.lt_trichotomy y.toNat z.toNat with hyz | hyz | hyz
        · simp [show x.toNat < z.toNat by omega]
        · rw [if_neg (by omega), if_neg (by omega)] at h2
          rw [if_neg (by omega), if_neg (by omega)]
          exact pyStrLeAux_trans xs ys zs h1 h2
        · rw [if_neg (Nat.lt_asymm hyz), if_pos hyz] at h2
          exact absurd h2 (by simp)
      · rw [if_neg (Nat.lt_asymm hxy), if_pos hxy] at h1
        exact absurd h1 (by simp)

theorem entryLe_trans (a b c : RegistryEntry) (h1 : entryLe a b = true)
    (h2 : entryLe b c = true) : entryLe a c = true :=
  pyStrLeAux_trans _ _ _ h1 h2

theorem entryLe_total (a b : RegistryEntry) : (entryLe a b || entryLe b a) = true := by
  rcases pyStrLeAux_total a.artifact_id.data b.artifact_id.data with h | h <;>
    simp [entryLe, pyStrLe, h]

theorem perm_pair {α : Type _} {l : List α} {a b : α} (h : l.Perm [a, b]) :
    l = [a, b] ∨ l = [b, a] := by
  have hlen := h.length_eq
  match l, h, hlen with
  | [x, y], h, _ =>
      have hx : x ∈ [a, b] := h.subset (by simp)
      have hx2 : x = a ∨ x = b := by simpa using hx
      rcases hx2 with hxa | hxb
      · left
        rw [hxa] at h ⊢
        have hy : [y] = [b] := List.perm_singleton.mp h.cons_inv
        have hyb : y = b := by simpa using hy
        rw [hyb]
      · right
        rw [hxb] at h ⊢
        have h2 := h.trans (List.Perm.swap b a [])
        have hy : [y] = [a] := List.perm_singleton.mp h2.cons_inv
        have hya : y = a := by simpa using hy
        rw [hya]

/-- C8: the envelope's validator stores entries sorted by `artifact_id`
ascending whatever the input order — the stored list is a sorted
permutation of the input — and this stored order determines the Merkle
leaf order; in particular ids "a" and "b" load as `["a", "b"]` from
either input order. -/
theorem binder_entries_sorted_by_artifact_id (cid : String) (ctx : RegistryContext)
    (es : List RegistryEntry) (e1 e2 : RegistryEntry)
    (h1 : e1.artifact_id = "a") (h2 : e2.artifact_id = "b") :
    ((mkSSOTBinder (mkRegistryEnvelope cid ctx es)).entries).Perm es ∧
    ((mkSSOTBinder (mkRegistryEnvelope cid ctx es)).entries).Pairwise
      (fun x y => pyStrLe x.artifact_id y.artifact_id = true) ∧
    (mkSSOTBinder (mkRegistryEnvelope cid ctx es)).merkle.leaves =
      ((mkSSOTBinder (mkRegistryEnvelope cid ctx es)).entries).map RegistryEntry.leaf_hash ∧
    (mkRegistryEnvelope cid ctx [e1, e2]).entries = [e1, e2] ∧
    (mkRegistryEnvelope cid ctx [e2, e1]).entries = [e1, e2] := by
  have hba : entryLe e2 e1 = false := by
    simp only [entryLe, pyStrLe, h1, h2]
    decide
  refine ⟨List.mergeSort_perm es entryLe,
          List.sorted_mergeSort entryLe_trans entryLe_total es, rfl, ?_, ?_⟩
  · show List.mergeSort [e1, e2] entryLe = [e1, e2]
    rcases perm_pair (List.mergeSort_perm [e1, e2] entryLe) with hp | hp
    · exact hp
    · have hs := List.sorted_mergeSort entryLe_trans entryLe_total [e1, e2]
      rw [hp] at hs
      simp only [List.pairwise_cons, List.mem_singleton] at hs
      exact absurd (hs.1 e1 rfl) (by simp [hba])
  · show List.mergeSort [e2, e1] entryLe = [e1, e2]
    rcases perm_pair (List.mergeSort_perm [e2, e1] entryLe) with hp | hp
    · have hs := List.sorted_mergeSort entryLe_trans entryLe_total [e2, e1]
      rw [hp] at hs
      simp only [List.pairwise_cons, List.mem_singleton] at hs
      exact absurd (hs.1 e1 rfl) (by simp [hba])
    · exact hp

theorem binder_entries_sorted_by_artifact_id_witness :
    ((mkSSOTBinder (mkRegistryEnvelope "capsule-0001" sampleContext
        [sampleEntry "b", sampleEntry "a"])).entries).Perm
      [sampleEntry "b", sampleEntry "a"] ∧
    ((mkSSOTBinder (mkRegistryEnvelope "capsule-0001" sampleContext
        [sampleEntry "b", sampleEntry "a"])).entries).Pairwise
      (fun x y => pyStrLe x.artifact_id y.artifact_id = true) ∧
    (mkSSOTBinder (mkRegistryEnvelope "capsule-0001" sampleContext
        [sampleEntry "b", sampleEntry "a"])).merkle.leaves =
      ((mkSSOTBinder (mkRegistryEnvelope "capsule-0001" sampleContext
          [sampleEntry "b", sampleEntry "a"])).entries).map RegistryEntry.leaf_hash ∧
    (mkRegistryEnvelope "capsule-0001" sampleContext
        [sampleEntry "a", sampleEntry "b"]).entries = [sampleEntry "a", sampleEntry "b"] ∧
    (mkRegistryEnvelope "capsule-0001" sampleContext
        [sampleEntry "b", sampleEntry "a"]).entries = [sampleEntry "a", sampleEntry "b"] :=
  binder_entries_sorted_by_artifact_id "capsule-0001" sampleContext
    [sampleEntry "b", sampleEntry "a"] (sampleEntry "a") (sampleEntry "b") rfl rfl

/-- C6 counterexample: an envelope carrying two entries with the same
`artifact_id` is accepted at construction — the validator only sorts —
and the binder's entry list then holds two entries sharing id "a". -/
theorem binder_accepts_duplicate_ids :
    (mkSSOTBinder dupEnvelope).entries.map RegistryEntry.artifact_id = ["a", "a"] ∧
    ¬ ((mkSSOTBinder dupEnvelope).entries.map RegistryEntry.artifact_id).Nodup := by
  have hmap : (mkSSOTBinder dupEnvelope).entries.map RegistryEntry.artifact_id = ["a", "a"] := by
    show (List.mergeSort [sampleEntryFull "a" "First Author" none,
            sampleEntryFull "a" "Second Author" none] entryLe).map RegistryEntry.artifact_id =
          ["a", "a"]
    rcases perm_pair (List.mergeSort_perm [sampleEntryFull "a" "First Author" none,
        sampleEntryFull "a" "Second Author" none] entryLe) with hp | hp <;> rw [hp] <;> rfl
  refine ⟨hmap, ?_⟩
  rw [hmap]
  decide

theorem buildEntryMap_eq : ∀ (es : List RegistryEntry) (acc : List (String × RegistryEntry)),
    (es.map RegistryEntry.artifact_id).Nodup →
    (∀ e ∈ es, ∀ p ∈ acc, p.1 ≠ e.artifact_id) →
    es.foldl (fun m e => dictInsert m e.artifact_id e) acc =
      acc ++ es.map (fun e => (e.artifact_id, e))
  | [], acc, _, _ => by simp
  | e :: rest, acc, hnd, hacc => by
      simp only [List.foldl_cons]
      have hnotin : acc.any (fun p => p.1 == e.artifact_id) = false := by
        rw [List.any_eq_false]
        intro p hp
        simpa using hacc e (by simp) p hp
      have hd : dictInsert acc e.artifact_id e = acc ++ [(e.artifact_id, e)] := by
        unfold dictInsert
        simp [hnotin]
      rw [hd]
      simp only [List.map_cons, List.nodup_cons, List.mem_map] at hnd
      have ih := buildEntryMap_eq rest (acc ++ [(e.artifact_id, e)]) hnd.2 ?_
      · rw [ih, List.map_cons, List.append_assoc]
        rfl
      · intro e' he' p hp
        rcases List.mem_append.mp hp with hin | hin
        · exact hacc e' (by simp [he']) p hin
        · simp only [List.mem_singleton] at hin
          subst hin
          intro hEq
          exact hnd.1 ⟨e', he', hEq.symm⟩

/-- C6 amended: construction performs no duplicate check, so uniqueness
of `artifact_id` within the binder holds exactly when the input envelope's
entries carry pairwise distinct ids; in that case the entry list, the
id-to-entry map and the Merkle leaf sequence all reflect the same
duplicate-free entry set. -/
theorem binder_unique_ids_of_nodup_input (cid : String) (ctx : RegistryContext)
    (es : List RegistryEntry)
    (h : (es.map RegistryEntry.artifact_id).Nodup) :
    (((mkSSOTBinder (mkRegistryEnvelope cid ctx es)).entries).map
        RegistryEntry.artifact_id).Nodup ∧
    (mkSSOTBinder (mkRegistryEnvelope cid ctx es)).entry_map =
      ((mkSSOTBinder (mkRegistryEnvelope cid ctx es)).entries).map
        (fun e => (e.artifact_id, e)) ∧
    (((mkSSOTBinder (mkRegistryEnvelope cid ctx es)).entry_map).map Prod.fst).Nodup ∧
    (mkSSOTBinder (mkRegistryEnvelope cid ctx es)).merkle.leaves =
      ((mkSSOTBinder (mkRegistryEnvelope cid ctx es)).entries).map
        RegistryEntry.leaf_hash := by
  have hnd : ((es.mergeSort entryLe).map RegistryEntry.artifact_id).Nodup :=
    (((List.mergeSort_perm es entryLe).map RegistryEntry.artifact_id).symm).nodup h
  have hm : (mkSSOTBinder (mkRegistryEnvelope cid ctx es)).entry_map =
      ((mkSSOTBinder (mkRegistryEnvelope cid ctx es)).entries).map
        (fun e => (e.artifact_id, e)) := by
    show buildEntryMap (es.mergeSort entryLe) =
      (es.mergeSort entryLe).map (fun e => (e.artifact_id, e))
    have hb := buildEntryMap_eq (es.mergeSort entryLe) [] hnd (by intro e he p hp; simp at hp)
    simpa [buildEntryMap] using hb
  refine ⟨hnd, hm, ?_, rfl⟩
  rw [hm, List.map_map]
  exact hnd

theorem binder_unique_ids_of_nodup_input_witness :
    (([sampleEntry "b", sampleEntry "a"].map RegistryEntry.artifact_id).Nodup) ∧
    (((mkSSOTBinder (mkRegistryEnvelope "capsule-0001" sampleContext
        [sampleEntry "b", sampleEntry "a"])).entries).map
        RegistryEntry.artifact_id).Nodup ∧
    (mkSSOTBinder (mkRegistryEnvelope "capsule-0001" sampleContext
        [sampleEntry "b", sampleEntry "a"])).entry_map =
      ((mkSSOTBinder (mkRegistryEnvelope "capsule-0001" sampleContext
          [sampleEntry "b", sampleEntry "a"])).entries).map
        (fun e => (e.artifact_id, e)) ∧
    (((mkSSOTBinder (mkRegistryEnvelope "capsule-0001" sampleContext
        [sampleEntry "b", sampleEntry "a"])).entry_map).map Prod.fst).Nodup ∧
    (mkSSOTBinder (mkRegistryEnvelope "capsule-0001" sampleContext
        [sampleEntry "b", sampleEntry "a"])).merkle.leaves =
      ((mkSSOTBinder (mkRegistryEnvelope "capsule-0001" sampleContext
          [sampleEntry "b", sampleEntry "a"])).entries).map
        RegistryEntry.leaf_hash :=
  ⟨by decide,
   binder_unique_ids_of_nodup_input "capsule-0001" sampleContext
     [sampleEntry "b", sampleEntry "a"] (by decide)⟩

theorem string_append_inj (s1 s2 t1 t2 : String) (h : s1 ++ s2 = t1 ++ t2)
    (hlen : s1.length = t1.length) : s1 = t1 ∧ s2 = t2 := by
  have hd : s1.data ++ s2.data = t1.data ++ t2.data := by
    rw [← String.data_append, ← String.data_append, h]
  have hp := List.append_inj hd hlen
  exact ⟨String.ext hp.1, String.ext hp.2⟩

/-- Order sensitivity of the Merkle root (the universally quantified form
of spec property 2) is exactly as strong as collision resistance of the
hex digest on the strings involved: if the roots of `[A, B, C]` and
`[C, B, A]` coincide for distinct `A` and `C`, two distinct strings with
the same SHA-256 hex digest exist.  The universal claim itself is
therefore neither provable nor refutable here. -/
theorem merkle_root_order_collision (A B C : String) (hAC : A ≠ C)
    (hroot : (MerkleTree.mk [A, B, C]).root = (MerkleTree.mk [C, B, A]).root) :
    ∃ s t : String, s ≠ t ∧ sha256hex s = sha256hex t := by
  have h1 : (MerkleTree.mk [A, B, C]).root = hash_pair (hash_pair A B) (hash_pair C C) := by
    simp [MerkleTree.root, MerkleTree.rootSt, rootLoop, padEven, combinePairs]
  have h2 : (MerkleTree.mk [C, B, A]).root = hash_pair (hash_pair C B) (hash_pair A A) := by
    simp [MerkleTree.root, MerkleTree.rootSt, rootLoop, padEven, combinePairs]
  rw [h1, h2] at hroot
  by_cases houter :
      hash_pair A B ++ hash_pair C C = hash_pair C B ++ hash_pair A A
  · have hsplit := string_append_inj _ _ _ _ houter
      (by rw [show ∀ x y : String, (hash_pair x y).length = 64 from
                fun x y => sha256hex_length (x ++ y),
              show ∀ x y : String, (hash_pair x y).length = 64 from
                fun x y => sha256hex_length (x ++ y)])
    by_cases hin : A ++ B = C ++ B
    · have hlenAC : A.length = C.length := by
        have := congrArg String.length hin
        rw [String.length_append, String.length_append] at this
        omega
      exact absurd (string_append_inj _ _ _ _ hin hlenAC).1 hAC
    · exact ⟨A ++ B, C ++ B, hin, hsplit.1⟩
  · exact ⟨hash_pair A B ++ hash_pair C C, hash_pair C B ++ hash_pair A A, houter, hroot⟩

end SSOT
